import Mathlib

/-!
Verificación del núcleo de eventos de PizzePOS: modelo de sobres (EventoSchema),
registro de dispositivos (autenticacion.ts), broker (broker.ts), distribuidor
(distribuidor.ts), pasarela WebSocket (ws.ts) y manejador de eventos del
microservidor (manejadorEventos.ts).

Convenciones del encaje:
- Los valores JSON decodificados se modelan con el tipo inductivo `Json`;
  los numeros JSON se modelan como racionales (`Rat`), suficiente para los
  chequeos estructurales (es numero, es entero, es positivo).
- Los objetos producidos por JSON.parse tienen claves unicas, por lo que la
  busqueda de campos por primera coincidencia es fiel.
- Los efectos (EventBus.emit) se modelan como trazas: listas ordenadas de
  emisiones devueltas por cada funcion.
- Los valores no deterministas del entorno (crypto.randomUUID, new Date)
  se pasan como parametros explicitos.
-/

namespace PizzePos

/-- Valor JSON decodificado (resultado de JSON.parse). -/
inductive Json where
  | nulo
  | bool (b : Bool)
  | num (q : Rat)
  | str (s : String)
  | arr (xs : List Json)
  | obj (campos : List (String × Json))

/-- Busqueda de un campo en un objeto JSON (claves unicas tras JSON.parse). -/
def buscarAsoc {α : Type} : List (String × α) → String → Option α
  | [], _ => none
  | (k, v) :: resto, clave => if k = clave then some v else buscarAsoc resto clave

/-- Veracidad de JavaScript: null, false, 0 y la cadena vacia son falsos. -/
def jsTruthy : Json → Bool
  | Json.nulo => false
  | Json.bool b => b
  | Json.num q => decide (q ≠ 0)
  | Json.str s => !s.isEmpty
  | Json.arr _ => true
  | Json.obj _ => true

/-- Acceso total a una propiedad: campo del objeto, o null (modela undefined). -/
def jsGet (v : Json) (clave : String) : Json :=
  match v with
  | Json.obj campos => (buscarAsoc campos clave).getD Json.nulo
  | _ => Json.nulo

/-- Digito hexadecimal (mayuscula o minuscula). -/
def esHexDigito (c : Char) : Bool :=
  c.isDigit || ('a' ≤ c && c ≤ 'f') || ('A' ≤ c && c ≤ 'F')

/-- Encaje de la expresion regular de `z.string().uuid()`:
36 caracteres, guiones en las posiciones 8, 13, 18 y 23, el resto hexadecimal. -/
def esUUID (s : String) : Bool :=
  let cs := s.data
  cs.length == 36 &&
  cs.enum.all fun p =>
    if p.1 = 8 ∨ p.1 = 13 ∨ p.1 = 18 ∨ p.1 = 23 then p.2 == '-' else esHexDigito p.2

/-- Sufijo de la fecha ISO tras los segundos: digitos opcionales y Z final. -/
def digitosLuegoZ : List Char → Bool
  | ['Z'] => true
  | c :: resto => c.isDigit && digitosLuegoZ resto
  | [] => false

/-- Resto tras los 19 caracteres fijos: "Z" directa o fraccion ".d+" y "Z". -/
def restoFechaISO : List Char → Bool
  | ['Z'] => true
  | '.' :: c :: resto => c.isDigit && digitosLuegoZ (c :: resto)
  | _ => false

/-- Encaje de la expresion regular de `z.string().datetime()` (sin offset):
patron YYYY-MM-DDTHH:MM:SS seguido de fraccion opcional y Z (UTC). -/
def esFechaISO (s : String) : Bool :=
  let cs := s.data
  decide (19 < cs.length) &&
  ((cs.take 19).enum.all fun p =>
    if p.1 = 4 ∨ p.1 = 7 then p.2 == '-'
    else if p.1 = 10 then p.2 == 'T'
    else if p.1 = 13 ∨ p.1 = 16 then p.2 == ':'
    else p.2.isDigit) &&
  restoFechaISO (cs.drop 19)

/-- Campo `meta` del sobre, segun EventoSchema (broker.ts, lineas 94-106). -/
structure Meta where
  id : String
  timestamp : String
  tipo : String
  origen : String
  prioridad : Rat
deriving DecidableEq, Repr

/-- Campo `contexto` del sobre, segun EventoSchema. -/
structure Contexto where
  dispositivoId : String
deriving DecidableEq, Repr

/-- Sobre validado, tipo `TipoEvento` inferido de EventoSchema: el `payload`
es `z.record(z.any())`, un objeto de claves arbitrarias que se conserva tal cual. -/
structure Evento where
  meta : Meta
  payload : List (String × Json)
  contexto : Contexto

/-- Validacion del objeto `meta`: id UUID, timestamp ISO, tipo y origen cadenas
(sin minimo de longitud en el codigo), prioridad numero entero positivo. -/
def parseMeta : Json → Option Meta
  | Json.obj campos =>
    match buscarAsoc campos "id", buscarAsoc campos "timestamp",
        buscarAsoc campos "tipo", buscarAsoc campos "origen",
        buscarAsoc campos "prioridad" with
    | some (Json.str id), some (Json.str ts), some (Json.str tipo),
      some (Json.str origen), some (Json.num p) =>
        if esUUID id && esFechaISO ts && p.den == 1 && decide (0 < p.num) then
          some ⟨id, ts, tipo, origen, p⟩
        else none
    | _, _, _, _, _ => none
  | _ => none

/-- Validacion del objeto `contexto`: dispositivoId cadena (puede ser vacia). -/
def parseContexto : Json → Option Contexto
  | Json.obj campos =>
    match buscarAsoc campos "dispositivoId" with
    | some (Json.str s) => some ⟨s⟩
    | _ => none
  | _ => none

/-- Encaje de `EventoSchema.parse` (broker.ts): valida meta, payload (debe ser
objeto) y contexto; un campo ausente o de tipo erroneo hace fallar todo el
analisis. El texto humano del error de Zod no se modela. -/
def parseEvento : Json → Option Evento
  | Json.obj campos =>
    match buscarAsoc campos "meta", buscarAsoc campos "payload",
        buscarAsoc campos "contexto" with
    | some vm, some (Json.obj pagos), some vc =>
      match parseMeta vm, parseContexto vc with
      | some m, some c => some ⟨m, pagos, c⟩
      | _, _ => none
    | _, _, _ => none
  | _ => none

/-- Registro de dispositivo segun DispositivoSchema (autenticacion.ts,
lineas 12-17): id y llave cadenas no vacias, activo booleano, rol opcional. -/
structure Dispositivo where
  id : String
  llave : String
  activo : Bool
  rol : Option String
deriving DecidableEq, Repr

/-- Validacion de una entrada contra DispositivoSchema: `z.string().min(1)`
para id y llave, booleano para activo, `z.string().optional()` para rol
(ausente vale; presente con otro tipo, incluido null, falla). -/
def parseDispositivo : Json → Option Dispositivo
  | Json.obj campos =>
    match buscarAsoc campos "id", buscarAsoc campos "llave",
        buscarAsoc campos "activo" with
    | some (Json.str id), some (Json.str llave), some (Json.bool activo) =>
      if !id.isEmpty && !llave.isEmpty then
        match buscarAsoc campos "rol" with
        | none => some ⟨id, llave, activo, none⟩
        | some (Json.str rol) => some ⟨id, llave, activo, some rol⟩
        | some _ => none
      else none
    | _, _, _ => none
  | _ => none

/-- Validacion de todas las entradas de la lista: falla si alguna falla. -/
def parseDispositivos : List Json → Option (List Dispositivo)
  | [] => some []
  | e :: resto =>
    match parseDispositivo e, parseDispositivos resto with
    | some d, some ds => some (d :: ds)
    | _, _ => none

/-- Encaje de `ListaDispositivosSchema.safeParse`: la entrada debe ser un
array y cada entrada debe cumplir DispositivoSchema. -/
def parseListaDispositivos : Json → Option (List Dispositivo)
  | Json.arr xs => parseDispositivos xs
  | _ => none

/-- Encaje de `esDispositivoAutorizado` (autenticacion.ts, lineas 34-55),
parametrizado por la tabla en memoria `dispositivosAutorizados`: busca el
primer registro con ese id y exige activo y llave identica. Las emisiones
diagnosticas laterales (microservidor:dispositivoNoAutorizado) no se modelan. -/
def esDispositivoAutorizado (tabla : List Dispositivo) (id llave : String) : Bool :=
  match tabla.find? (fun d => d.id == id) with
  | none => false
  | some d =>
    if !d.activo then false
    else if d.llave != llave then false
    else true

/-- Resultado de una carga de lista de dispositivos: tabla resultante,
exito y canales de los eventos emitidos. -/
structure ResultadoCarga where
  tabla : List Dispositivo
  exito : Bool
  emitidos : List String
deriving DecidableEq, Repr

/-- Encaje de `cargarListaAutorizada` (autenticacion.ts, lineas 62-80):
valida la lista completa con Zod; si falla, emite un core:errorDetectado y
conserva la tabla anterior; si no, reemplaza la tabla entera. -/
def cargarListaAutorizada (actual : List Dispositivo) (lista : Json) : ResultadoCarga :=
  match parseListaDispositivos lista with
  | none => ⟨actual, false, ["core:errorDetectado"]⟩
  | some ds => ⟨ds, true, []⟩

/-- Payload del evento de confirmacion de distribucion (distribuidor.ts,
lineas 31-36): solo metadatos del evento original, nunca el payload. -/
structure PayloadConfirmacion where
  eventoOriginalId : String
  eventoOriginalTipo : String
  eventoOriginalOrigen : String
  timestampDistribucion : String
deriving DecidableEq, Repr

/-- Sobre `eventoDistribuido` construido por el distribuidor
(distribuidor.ts, lineas 23-40). -/
structure Confirmacion where
  metaId : String
  metaTimestamp : String
  metaTipo : String
  metaOrigen : String
  metaPrioridad : Rat
  payload : PayloadConfirmacion
  contextoDispositivoId : String
deriving DecidableEq, Repr

/-- Valor transportado por una emision del nucleo en el EventBus. -/
inductive ValorEmitido where
  | evento (ev : Evento)
  | confirmacion (c : Confirmacion)
  | revocacion (dispositivo : String) (motivo : String)
  | errorValidacion (tipoError : String) (eventoOriginal : Json)

/-- Una emision del EventBus: canal y valor. -/
abbrev Emision := String × ValorEmitido

/-- Encaje de `distribuirEvento` (distribuidor.ts, lineas 16-43): republica el
sobre original bajo su propio meta.tipo y emite la confirmacion
core:eventoDistribuido. `idNuevo` modela crypto.randomUUID y `marcaTiempo` los
dos new Date().toISOString() del mismo paso sincrono. Las excepciones de
suscriptores (rama catch) no se modelan. -/
def distribuirEvento (idNuevo marcaTiempo : String) (evento : Evento) : List Emision :=
  [ (evento.meta.tipo, ValorEmitido.evento evento),
    ("core:eventoDistribuido", ValorEmitido.confirmacion
      { metaId := idNuevo
        metaTimestamp := marcaTiempo
        metaTipo := "core:eventoDistribuido"
        metaOrigen := "corazon"
        metaPrioridad := evento.meta.prioridad
        payload :=
          { eventoOriginalId := evento.meta.id
            eventoOriginalTipo := evento.meta.tipo
            eventoOriginalOrigen := evento.meta.origen
            timestampDistribucion := marcaTiempo }
        contextoDispositivoId := "corazon" }) ]

/-- Modelled from the spec: `validarLlaveDispositivo`
(modulos/corazon/validacion/llaves.ts) no figura entre las fuentes; solo se
ven sus llamadores. Segun la especificacion (4.2-4.3) la autorizacion del
broker es el chequeo del registro de dispositivos `isAuthorized(id, key)`,
cuyo homologo presente en las fuentes es `esDispositivoAutorizado`
(autenticacion.ts): existe el registro con ese id, esta activo y la llave
coincide exactamente. -/
def validarLlaveDispositivo (tabla : List Dispositivo) (dispositivoId llave : String) : Bool :=
  esDispositivoAutorizado tabla dispositivoId llave

/-- Encaje de `procesarEvento` (broker.ts, lineas 117-144): valida estructura
con EventoSchema; si falla, emite un unico core:errorDetectado con el evento
crudo original. Si es valido, autoriza con
`validarLlaveDispositivo(contexto.dispositivoId, meta.origen)`; si falla,
emite core:llaveRevocada nombrando el dispositivo y termina. Si autoriza,
emite core:eventoRecibido con el sobre validado y lo entrega al distribuidor. -/
def procesarEvento (tabla : List Dispositivo) (idNuevo marcaTiempo : String)
    (eventoCrudo : Json) : List Emision :=
  match parseEvento eventoCrudo with
  | none =>
    [("core:errorDetectado", ValorEmitido.errorValidacion "EVENTO_INVALIDO" eventoCrudo)]
  | some evento =>
    if validarLlaveDispositivo tabla evento.contexto.dispositivoId evento.meta.origen then
      ("core:eventoRecibido", ValorEmitido.evento evento)
        :: distribuirEvento idNuevo marcaTiempo evento
    else
      [("core:llaveRevocada", ValorEmitido.revocacion evento.contexto.dispositivoId
          "Llave no válida o dispositivo inactivo")]

/-- Mapa `conexiones` de ws.ts: de clave (id temporal o dispositivoId) al
socket, modelado como lista asociativa con la semantica de Map de JavaScript
(set sobre clave existente reemplaza en el sitio, si no anexa al final). Los
sockets se identifican por un numero. -/
abbrev MapaConexiones := List (String × Nat)

/-- Encaje de `conexiones.get`. -/
def mapGet (m : MapaConexiones) (clave : String) : Option Nat :=
  buscarAsoc m clave

/-- Encaje de `conexiones.set`: reemplaza el valor si la clave existe,
si no, anexa la entrada al final (orden de insercion de Map). -/
def mapSet (m : MapaConexiones) (clave : String) (socket : Nat) : MapaConexiones :=
  if (mapGet m clave).isSome then
    m.map (fun p => if p.1 = clave then (clave, socket) else p)
  else m ++ [(clave, socket)]

/-- Encaje de `conexiones.delete`. -/
def mapDelete (m : MapaConexiones) (clave : String) : MapaConexiones :=
  m.filter (fun p => p.1 != clave)

/-- Extraccion de `datos.contexto?.dispositivoId` (ws.ts, linea 111): devuelve
el id solo si es una cadena no vacia (veracidad de JavaScript); los valores
veraces no cadena, posibles en tiempo de ejecucion, quedan fuera del modelo
(la firma TypeScript del mapa exige claves cadena). -/
def extraerDispositivoId (datos : Json) : Option String :=
  match datos with
  | Json.obj campos =>
    match buscarAsoc campos "contexto" with
    | some (Json.obj contexto) =>
      match buscarAsoc contexto "dispositivoId" with
      | some (Json.str s) => if s.isEmpty then none else some s
      | _ => none
    | _ => none
  | _ => none

/-- Emisiones de la pasarela WebSocket hacia el bus global. -/
inductive EmisionWs where
  | conexionEstablecida (dispositivoId : String)
  | eventoEntrante (datos : Json)

/-- Resultado de procesar un mensaje entrante en un socket. -/
structure ResultadoMensaje where
  dispositivoId : Option String
  conexiones : MapaConexiones
  emitidos : List EmisionWs

/-- Encaje del manejador de mensaje de `configurarEventosSocket` (ws.ts,
lineas 105-146) para un mensaje que decodifica como JSON: si el socket aun no
esta identificado y el mensaje declara contexto.dispositivoId, promueve la
conexion (borra el id temporal, asienta el dispositivoId) y emite
microservidor:conexionEstablecida; en todo caso emite
microservidor:eventoEntrante con el valor decodificado sin transformacion. -/
def alRecibirMensaje (idActual : Option String) (conexiones : MapaConexiones)
    (conexionId : String) (socket : Nat) (datos : Json) : ResultadoMensaje :=
  match idActual, extraerDispositivoId datos with
  | none, some nuevoId =>
    { dispositivoId := some nuevoId
      conexiones := mapSet (mapDelete conexiones conexionId) nuevoId socket
      emitidos := [EmisionWs.conexionEstablecida nuevoId, EmisionWs.eventoEntrante datos] }
  | _, _ =>
    { dispositivoId := idActual
      conexiones := conexiones
      emitidos := [EmisionWs.eventoEntrante datos] }

/-- Encaje de `enviarMensajeADispositivo` (ws.ts, lineas 193-202): devuelve el
socket al que se escribe el mensaje (some = envio con exito, none = el codigo
devuelve false sin enviar). `abierto` modela readyState === OPEN. -/
def enviarMensajeADispositivo (abierto : Nat → Bool) (conexiones : MapaConexiones)
    (dispositivoId : String) : Option Nat :=
  match mapGet conexiones dispositivoId with
  | some conexion => if abierto conexion then some conexion else none
  | none => none

/-- Estados alcanzables del mapa de conexiones de ws.ts: vacio al inicio;
alta con id temporal (linea 65), promocion borrar-y-asentar (lineas 115-116)
y baja al cerrarse el socket (lineas 149-158). -/
inductive Alcanzable : MapaConexiones → Prop where
  | inicial : Alcanzable []
  | conectar (m : MapaConexiones) (conexionId : String) (socket : Nat) :
      Alcanzable m → Alcanzable (mapSet m conexionId socket)
  | identificar (m : MapaConexiones) (conexionId nuevoId : String) (socket : Nat) :
      Alcanzable m → Alcanzable (mapSet (mapDelete m conexionId) nuevoId socket)
  | cerrar (m : MapaConexiones) (clave : String) :
      Alcanzable m → Alcanzable (mapDelete m clave)

/-- Canales del bus global con oyente registrado en el modulo microservidor:
los cuatro eventBus.on de manejadorEventos.ts. Ningun otro archivo del modulo
se suscribe al bus; en particular nadie escucha microservidor:cerrarConexion. -/
def canalesSuscritosMicroservidor : List String :=
  ["core:eventoDistribuido", "core:llaveRevocada",
   "microservidor:eventoEntrante", "microservidor:errorConexion"]

/-- Encaje del reenvio de `microservidor:eventoEntrante` al nucleo
(manejadorEventos.ts, lineas 73-80): reemite el valor sin transformacion por
core:procesarEvento solo si `evento.meta && evento.meta.tipo` es veraz; si no,
lo descarta. Un acceso a propiedad que lanza TypeError (evento null) tambien
resulta en no reenviar. -/
def relayEventoEntrante (evento : Json) : Option Json :=
  match evento with
  | Json.obj campos =>
    match buscarAsoc campos "meta" with
    | some meta =>
      if jsTruthy meta then
        match meta with
        | Json.obj metaCampos =>
          match buscarAsoc metaCampos "tipo" with
          | some tipo => if jsTruthy tipo then some evento else none
          | none => none
        | _ => none
      else none
    | none => none
  | _ => none

/-- Resultado de despachar un evento del bus en el microservidor. -/
structure ResultadoBus where
  conexiones : MapaConexiones
  cierres : List String
  emitidos : List (String × Json)

/-- Despacho de un evento del bus global por los oyentes del microservidor
(manejadorEventos.ts, lineas 42-107). `cierres` registra los dispositivos
cuya conexion se cierra a la fuerza: ninguna rama del codigo cierra sockets
ni toca el mapa de conexiones. El oyente de core:llaveRevocada (lineas 57-65)
lee `evento.payload.dispositivoId`; si el evento no trae un objeto payload,
el acceso lanza TypeError y no se emite nada; si lo trae, solo se emite
microservidor:cerrarConexion, canal sin oyente alguno. El oyente de
core:eventoDistribuido reenvia a los dispositivos sin tocar el mapa. El de
microservidor:errorConexion reempaqueta errores criticos (el texto humano del
mensaje no se modela). -/
def manejarEventoBus (conexiones : MapaConexiones) (canal : String) (datos : Json) :
    ResultadoBus :=
  if canal = "core:eventoDistribuido" then
    ⟨conexiones, [], []⟩
  else if canal = "core:llaveRevocada" then
    match datos with
    | Json.obj campos =>
      match buscarAsoc campos "payload" with
      | some (Json.obj payload) =>
        ⟨conexiones, [],
          [("microservidor:cerrarConexion",
            Json.obj [("dispositivoId", (buscarAsoc payload "dispositivoId").getD Json.nulo),
                      ("motivo", Json.str "Llave revocada por el sistema")])]⟩
      | _ => ⟨conexiones, [], []⟩
    | _ => ⟨conexiones, [], []⟩
  else if canal = "microservidor:eventoEntrante" then
    match relayEventoEntrante datos with
    | some d => ⟨conexiones, [], [("core:procesarEvento", d)]⟩
    | none => ⟨conexiones, [], []⟩
  else if canal = "microservidor:errorConexion" then
    match datos with
    | Json.obj campos =>
      match buscarAsoc campos "payload" with
      | some (Json.obj payload) =>
        if jsTruthy ((buscarAsoc payload "critico").getD Json.nulo) then
          match buscarAsoc campos "meta" with
          | some (Json.obj metaCampos) =>
            ⟨conexiones, [],
              [("core:errorDetectado",
                Json.obj
                  [("meta", Json.obj
                    [("id", (buscarAsoc metaCampos "id").getD Json.nulo),
                     ("timestamp", (buscarAsoc metaCampos "timestamp").getD Json.nulo),
                     ("tipo", Json.str "core:errorDetectado"),
                     ("origen", Json.str "microservidor"),
                     ("prioridad", Json.num 9)]),
                   ("payload", Json.obj
                    [("error", (buscarAsoc payload "error").getD Json.nulo),
                     ("componente", (buscarAsoc payload "componente").getD
                        (Json.str "microservidor"))]),
                   ("contexto", Json.obj [("dispositivoId", Json.str "microservidor")])])]⟩
          | _ => ⟨conexiones, [], []⟩
        else ⟨conexiones, [], []⟩
      | _ => ⟨conexiones, [], []⟩
    | _ => ⟨conexiones, [], []⟩
  else ⟨conexiones, [], []⟩

/-- Procesa una cola de emisiones del bus hasta agotarla (o agotar el
combustible): despacho sincrono en orden de emision, acumulando los cierres
forzosos de conexiones. -/
def procesarCola : Nat → MapaConexiones → List (String × Json) →
    MapaConexiones × List String
  | 0, conexiones, _ => (conexiones, [])
  | _ + 1, conexiones, [] => (conexiones, [])
  | combustible + 1, conexiones, (canal, datos) :: resto =>
    let r := manejarEventoBus conexiones canal datos
    let siguiente := procesarCola combustible r.conexiones (resto ++ r.emitidos)
    (siguiente.1, r.cierres ++ siguiente.2)

/-! Lemas auxiliares sobre el mapa de conexiones. -/

theorem buscarAsoc_eq_none {α : Type} (m : List (String × α)) (k : String) :
    buscarAsoc m k = none ↔ k ∉ m.map Prod.fst := by
  induction m with
  | nil => simp [buscarAsoc]
  | cons p resto ih =>
    obtain ⟨a, b⟩ := p
    by_cases h : a = k
    · subst h; simp [buscarAsoc]
    · simp [buscarAsoc, h, ih, Ne.symm h]

theorem buscarAsoc_append_ultimo {α : Type} (m : List (String × α)) (k : String) (v : α)
    (h : buscarAsoc m k = none) : buscarAsoc (m ++ [(k, v)]) k = some v := by
  induction m with
  | nil => simp [buscarAsoc]
  | cons p resto ih =>
    obtain ⟨a, b⟩ := p
    by_cases hp : a = k
    · simp [buscarAsoc, hp] at h
    · simp only [buscarAsoc, hp, if_false, List.cons_append, if_neg hp] at h ⊢
      exact ih h

theorem mapGet_reemplazo (m : MapaConexiones) (k : String) (v : Nat) :
    mapGet (m.map (fun p => if p.1 = k then (k, v) else p)) k
      = (mapGet m k).map (fun _ => v) := by
  induction m with
  | nil => rfl
  | cons p resto ih =>
    obtain ⟨a, b⟩ := p
    by_cases h : a = k
    · subst h
      simp only [List.map_cons, if_pos rfl]
      show buscarAsoc ((a, v) :: _) a = Option.map _ (buscarAsoc ((a, b) :: resto) a)
      simp only [buscarAsoc, if_pos rfl]
      rfl
    · simp only [List.map_cons, if_neg h]
      show buscarAsoc ((a, b) :: _) k = Option.map _ (buscarAsoc ((a, b) :: resto) k)
      simp only [buscarAsoc, if_neg h]
      exact ih

theorem mapGet_mapSet_self (m : MapaConexiones) (k : String) (v : Nat) :
    mapGet (mapSet m k v) k = some v := by
  unfold mapSet
  by_cases h : (mapGet m k).isSome
  · rw [if_pos h, mapGet_reemplazo]
    cases heq : mapGet m k with
    | none => rw [heq] at h; simp at h
    | some w => simp
  · rw [if_neg h]
    have hn : buscarAsoc m k = none := by
      cases heq : mapGet m k with
      | none => exact heq
      | some w => rw [heq] at h; simp at h
    exact buscarAsoc_append_ultimo m k v hn

theorem claves_reemplazo (m : MapaConexiones) (k : String) (v : Nat) :
    (m.map (fun p => if p.1 = k then (k, v) else p)).map Prod.fst = m.map Prod.fst := by
  induction m with
  | nil => rfl
  | cons p resto ih =>
    by_cases h : p.1 = k <;> simp [h, ih]

theorem nodup_mapSet (m : MapaConexiones) (k : String) (v : Nat)
    (h : (m.map Prod.fst).Nodup) : ((mapSet m k v).map Prod.fst).Nodup := by
  unfold mapSet
  by_cases hs : (mapGet m k).isSome
  · rw [if_pos hs, claves_reemplazo]; exact h
  · rw [if_neg hs]
    have hn : k ∉ m.map Prod.fst := by
      apply (buscarAsoc_eq_none m k).mp
      cases heq : mapGet m k with
      | none => exact heq
      | some w => rw [heq] at hs; simp at hs
    rw [List.map_append]
    refine List.Nodup.append h (by simp) ?_
    intro x hx hk
    simp only [List.map_cons, List.map_nil, List.mem_singleton] at hk
    subst hk
    exact hn hx

theorem nodup_mapDelete (m : MapaConexiones) (k : String)
    (h : (m.map Prod.fst).Nodup) : ((mapDelete m k).map Prod.fst).Nodup :=
  List.Nodup.sublist (List.Sublist.map Prod.fst (List.filter_sublist m)) h

theorem alcanzable_claves_nodup (m : MapaConexiones) (h : Alcanzable m) :
    (m.map Prod.fst).Nodup := by
  induction h with
  | inicial => simp
  | conectar m cid sock _ ih => exact nodup_mapSet m cid sock ih
  | identificar m cid nid sock _ ih => exact nodup_mapSet _ nid sock (nodup_mapDelete m cid ih)
  | cerrar m clave _ ih => exact nodup_mapDelete m clave ih

/-- C6: en todo estado alcanzable, el mapa de conexiones registra a lo sumo
una conexion viva por dispositivo (claves sin duplicados); cuando un segundo
socket declara un dispositivoId ya asignado, la promocion sobreescribe la
entrada (las claves siguen sin duplicarse, no se acumulan), y un envio
dirigido posterior a ese dispositivoId se entrega unicamente por el socket
identificado mas recientemente. -/
theorem C6_unicidad_conexion_por_dispositivo (m : MapaConexiones) (abierto : Nat → Bool)
    (conexionId nuevoId : String) (socket : Nat)
    (h : Alcanzable m) (habierto : abierto socket = true) :
    (m.map Prod.fst).Nodup ∧
    ((mapSet (mapDelete m conexionId) nuevoId socket).map Prod.fst).Nodup ∧
    enviarMensajeADispositivo abierto (mapSet (mapDelete m conexionId) nuevoId socket)
      nuevoId = some socket := by
  refine ⟨alcanzable_claves_nodup m h, ?_, ?_⟩
  · exact nodup_mapSet _ nuevoId socket
      (nodup_mapDelete m conexionId (alcanzable_claves_nodup m h))
  · simp [enviarMensajeADispositivo, mapGet_mapSet_self, habierto]

theorem C6_unicidad_conexion_por_dispositivo_witness :
    Alcanzable (mapSet (mapDelete (mapSet [] "temp-1" 1) "temp-1") "term-2" 1) ∧
    (fun _ => true) 2 = true ∧
    (((mapSet (mapDelete (mapSet [] "temp-1" 1) "temp-1") "term-2" 1).map Prod.fst).Nodup ∧
      ((mapSet (mapDelete (mapSet (mapDelete (mapSet [] "temp-1" 1) "temp-1") "term-2" 1)
          "temp-2") "term-2" 2).map Prod.fst).Nodup ∧
      enviarMensajeADispositivo (fun _ => true)
        (mapSet (mapDelete (mapSet (mapDelete (mapSet [] "temp-1" 1) "temp-1") "term-2" 1)
          "temp-2") "term-2" 2) "term-2" = some 2) :=
  ⟨Alcanzable.identificar _ _ _ _ (Alcanzable.conectar _ _ _ Alcanzable.inicial), rfl,
    C6_unicidad_conexion_por_dispositivo _ (fun _ => true) "temp-2" "term-2" 2
      (Alcanzable.identificar _ _ _ _ (Alcanzable.conectar _ _ _ Alcanzable.inicial)) rfl⟩

/-! Entradas concretas de ejemplo para los testigos. -/

/-- Entrada cruda sin campo meta (escenario C de la especificacion). -/
def ejemploCrudoInvalido : Json := Json.obj [("payload", Json.obj [])]

/-- Sobre crudo estructuralmente valido del dispositivo term-1. -/
def ejemploCrudoValido : Json :=
  Json.obj
    [("meta", Json.obj
        [("id", Json.str "123e4567-e89b-12d3-a456-426614174000"),
         ("timestamp", Json.str "2024-01-01T00:00:00Z"),
         ("tipo", Json.str "cart:itemAdded"),
         ("origen", Json.str "clave-1"),
         ("prioridad", Json.num 5)]),
     ("payload", Json.obj []),
     ("contexto", Json.obj [("dispositivoId", Json.str "term-1")])]

/-- Resultado del analisis estructural de `ejemploCrudoValido`. -/
def evEjemplo : Evento :=
  ⟨⟨"123e4567-e89b-12d3-a456-426614174000", "2024-01-01T00:00:00Z",
    "cart:itemAdded", "clave-1", 5⟩, [], ⟨"term-1"⟩⟩

/-- Segundo sobre valido del mismo dispositivo y origen, distinto en todo lo demas. -/
def ejemploCrudoValido2 : Json :=
  Json.obj
    [("meta", Json.obj
        [("id", Json.str "00000000-0000-0000-0000-000000000000"),
         ("timestamp", Json.str "2025-12-31T23:59:59.123Z"),
         ("tipo", Json.str "cuentas:cerrada"),
         ("origen", Json.str "clave-1"),
         ("prioridad", Json.num 9)]),
     ("payload", Json.obj [("x", Json.num 1)]),
     ("contexto", Json.obj [("dispositivoId", Json.str "term-1")])]

/-- Resultado del analisis estructural de `ejemploCrudoValido2`. -/
def evEjemplo2 : Evento :=
  ⟨⟨"00000000-0000-0000-0000-000000000000", "2025-12-31T23:59:59.123Z",
    "cuentas:cerrada", "clave-1", 9⟩, [("x", Json.num 1)], ⟨"term-1"⟩⟩

/-- Tabla con term-1 activo cuya llave coincide con el origen de los ejemplos. -/
def tablaEjemplo : List Dispositivo := [⟨"term-1", "clave-1", true, none⟩]

/-! Teoremas de los requisitos. -/

/-- C1: para toda entrada cruda que no supera la validacion estructural del
sobre, procesarEvento no publica ningun core:eventoRecibido, no entrega nada
al distribuidor, y publica exactamente un diagnostico de rechazo estructural
core:errorDetectado para esa entrada. -/
theorem C1_puerta_estructural (tabla : List Dispositivo) (idNuevo marcaTiempo : String)
    (crudo : Json) (h : parseEvento crudo = none) :
    procesarEvento tabla idNuevo marcaTiempo crudo
        = [("core:errorDetectado", ValorEmitido.errorValidacion "EVENTO_INVALIDO" crudo)] ∧
    (∀ v, ("core:eventoRecibido", v) ∉ procesarEvento tabla idNuevo marcaTiempo crudo) ∧
    (∀ c x, (c, ValorEmitido.confirmacion x) ∉ procesarEvento tabla idNuevo marcaTiempo crudo) ∧
    (procesarEvento tabla idNuevo marcaTiempo crudo).countP
        (fun e => e.1 == "core:errorDetectado") = 1 := by
  have htr : procesarEvento tabla idNuevo marcaTiempo crudo
      = [("core:errorDetectado", ValorEmitido.errorValidacion "EVENTO_INVALIDO" crudo)] := by
    simp [procesarEvento, h]
  refine ⟨htr, ?_, ?_, ?_⟩
  · intro v hv
    rw [htr] at hv
    simp at hv
  · intro c x hx
    rw [htr] at hx
    simp at hx
  · rw [htr]
    rfl

theorem C1_puerta_estructural_witness :
    parseEvento ejemploCrudoInvalido = none ∧
    (procesarEvento [] "id-1" "ts-1" ejemploCrudoInvalido
        = [("core:errorDetectado",
            ValorEmitido.errorValidacion "EVENTO_INVALIDO" ejemploCrudoInvalido)] ∧
      (∀ v, ("core:eventoRecibido", v) ∉ procesarEvento [] "id-1" "ts-1" ejemploCrudoInvalido) ∧
      (∀ c x, (c, ValorEmitido.confirmacion x)
          ∉ procesarEvento [] "id-1" "ts-1" ejemploCrudoInvalido) ∧
      (procesarEvento [] "id-1" "ts-1" ejemploCrudoInvalido).countP
          (fun e => e.1 == "core:errorDetectado") = 1) :=
  ⟨rfl, C1_puerta_estructural [] "id-1" "ts-1" ejemploCrudoInvalido rfl⟩

/-- C2: para todo evento estructuralmente valido cuyo dispositivo declarado
no supera la autorizacion (desconocido, inactivo o llave presentada que no
coincide: exactamente los casos en que el chequeo del registro devuelve
false), procesarEvento no publica core:eventoRecibido ni distribuye el
evento; en su lugar publica el diagnostico core:llaveRevocada nombrando ese
dispositivo. -/
theorem C2_puerta_autorizacion (tabla : List Dispositivo) (idNuevo marcaTiempo : String)
    (crudo : Json) (ev : Evento)
    (hp : parseEvento crudo = some ev)
    (ha : esDispositivoAutorizado tabla ev.contexto.dispositivoId ev.meta.origen = false) :
    procesarEvento tabla idNuevo marcaTiempo crudo
        = [("core:llaveRevocada", ValorEmitido.revocacion ev.contexto.dispositivoId
            "Llave no válida o dispositivo inactivo")] ∧
    (∀ v, ("core:eventoRecibido", v) ∉ procesarEvento tabla idNuevo marcaTiempo crudo) ∧
    (∀ c x, (c, ValorEmitido.confirmacion x)
        ∉ procesarEvento tabla idNuevo marcaTiempo crudo) := by
  have htr : procesarEvento tabla idNuevo marcaTiempo crudo
      = [("core:llaveRevocada", ValorEmitido.revocacion ev.contexto.dispositivoId
          "Llave no válida o dispositivo inactivo")] := by
    simp [procesarEvento, validarLlaveDispositivo, hp, ha]
  refine ⟨htr, ?_, ?_⟩
  · intro v hv
    rw [htr] at hv
    simp at hv
  · intro c x hx
    rw [htr] at hx
    simp at hx

theorem C2_puerta_autorizacion_witness :
    parseEvento ejemploCrudoValido = some evEjemplo ∧
    esDispositivoAutorizado [] evEjemplo.contexto.dispositivoId evEjemplo.meta.origen = false ∧
    (procesarEvento [] "id-1" "ts-1" ejemploCrudoValido
        = [("core:llaveRevocada", ValorEmitido.revocacion evEjemplo.contexto.dispositivoId
            "Llave no válida o dispositivo inactivo")] ∧
      (∀ v, ("core:eventoRecibido", v) ∉ procesarEvento [] "id-1" "ts-1" ejemploCrudoValido) ∧
      (∀ c x, (c, ValorEmitido.confirmacion x)
          ∉ procesarEvento [] "id-1" "ts-1" ejemploCrudoValido)) :=
  ⟨rfl, rfl, C2_puerta_autorizacion [] "id-1" "ts-1" ejemploCrudoValido evEjemplo rfl rfl⟩

/-- C8: para todo sobre validado entregado a distribuirEvento, la emision
republicada bajo su propio meta.tipo es el sobre original con el payload
intacto, y el payload del evento de confirmacion contiene solo los metadatos
del original (id, tipo, origen y marca de distribucion), nunca una copia del
payload original: la confirmacion es identica aunque se cambie el payload. -/
theorem C8_distribucion_sin_mutar_payload (idNuevo marcaTiempo : String) (evento : Evento) :
    (distribuirEvento idNuevo marcaTiempo evento).head?
        = some (evento.meta.tipo, ValorEmitido.evento evento) ∧
    (∃ c : Confirmacion,
      distribuirEvento idNuevo marcaTiempo evento
          = [(evento.meta.tipo, ValorEmitido.evento evento),
             ("core:eventoDistribuido", ValorEmitido.confirmacion c)] ∧
      c.payload = ⟨evento.meta.id, evento.meta.tipo, evento.meta.origen, marcaTiempo⟩) ∧
    (∀ otroPayload : List (String × Json),
      ((distribuirEvento idNuevo marcaTiempo
          { evento with payload := otroPayload }).getLast?).map Prod.snd
        = ((distribuirEvento idNuevo marcaTiempo evento).getLast?).map Prod.snd) :=
  ⟨rfl, ⟨_, rfl, rfl⟩, fun _ => rfl⟩

/-- C9: para todo sobre aceptado por el broker (estructuralmente valido y
autorizado), el evento core:eventoRecibido con ese sobre se publica
estrictamente antes que el core:eventoDistribuido que referencia el mismo
meta.id. -/
theorem C9_recibido_antes_que_distribuido (tabla : List Dispositivo)
    (idNuevo marcaTiempo : String) (crudo : Json) (ev : Evento)
    (hp : parseEvento crudo = some ev)
    (ha : esDispositivoAutorizado tabla ev.contexto.dispositivoId ev.meta.origen = true) :
    ∃ i j : Nat, i < j ∧
      (procesarEvento tabla idNuevo marcaTiempo crudo)[i]?
          = some ("core:eventoRecibido", ValorEmitido.evento ev) ∧
      ∃ c : Confirmacion,
        (procesarEvento tabla idNuevo marcaTiempo crudo)[j]?
            = some ("core:eventoDistribuido", ValorEmitido.confirmacion c) ∧
        c.payload.eventoOriginalId = ev.meta.id := by
  have htr : procesarEvento tabla idNuevo marcaTiempo crudo
      = ("core:eventoRecibido", ValorEmitido.evento ev)
          :: distribuirEvento idNuevo marcaTiempo ev := by
    simp [procesarEvento, validarLlaveDispositivo, hp, ha]
  refine ⟨0, 2, by norm_num, by rw [htr]; rfl, ?_⟩
  exact ⟨⟨idNuevo, marcaTiempo, "core:eventoDistribuido", "corazon", ev.meta.prioridad,
    ⟨ev.meta.id, ev.meta.tipo, ev.meta.origen, marcaTiempo⟩, "corazon"⟩,
    by rw [htr]; rfl, rfl⟩

theorem C9_recibido_antes_que_distribuido_witness :
    parseEvento ejemploCrudoValido = some evEjemplo ∧
    esDispositivoAutorizado tablaEjemplo evEjemplo.contexto.dispositivoId
        evEjemplo.meta.origen = true ∧
    (∃ i j : Nat, i < j ∧
      (procesarEvento tablaEjemplo "id-1" "ts-1" ejemploCrudoValido)[i]?
          = some ("core:eventoRecibido", ValorEmitido.evento evEjemplo) ∧
      ∃ c : Confirmacion,
        (procesarEvento tablaEjemplo "id-1" "ts-1" ejemploCrudoValido)[j]?
            = some ("core:eventoDistribuido", ValorEmitido.confirmacion c) ∧
        c.payload.eventoOriginalId = evEjemplo.meta.id) :=
  ⟨rfl, rfl,
    C9_recibido_antes_que_distribuido tablaEjemplo "id-1" "ts-1" ejemploCrudoValido
      evEjemplo rfl rfl⟩

/-- Reconoce las emisiones de rechazo de autorizacion (core:llaveRevocada). -/
def esEmisionRevocacion : Emision → Bool
  | (_, ValorEmitido.revocacion _ _) => true
  | _ => false

/-- C10: para dos eventos estructuralmente validos que coinciden en
contexto.dispositivoId y meta.origen (la credencial que el broker pasa como
llave) y difieren arbitrariamente en lo demas, el desenlace de autorizacion
del broker es identico: o ambos se aceptan y publican como
core:eventoRecibido, o ambos se rechazan con la misma senal de no
autorizado. -/
theorem C10_autorizacion_funcion_de_id_y_origen (tabla : List Dispositivo)
    (id1 ts1 id2 ts2 : String) (crudo1 crudo2 : Json) (ev1 ev2 : Evento)
    (h1 : parseEvento crudo1 = some ev1) (h2 : parseEvento crudo2 = some ev2)
    (hdev : ev1.contexto.dispositivoId = ev2.contexto.dispositivoId)
    (horig : ev1.meta.origen = ev2.meta.origen) :
    ((∃ v, ("core:eventoRecibido", v) ∈ procesarEvento tabla id1 ts1 crudo1) ↔
      (∃ v, ("core:eventoRecibido", v) ∈ procesarEvento tabla id2 ts2 crudo2)) ∧
    (procesarEvento tabla id1 ts1 crudo1).filter esEmisionRevocacion
      = (procesarEvento tabla id2 ts2 crudo2).filter esEmisionRevocacion := by
  have hauth : validarLlaveDispositivo tabla ev1.contexto.dispositivoId ev1.meta.origen
      = validarLlaveDispositivo tabla ev2.contexto.dispositivoId ev2.meta.origen := by
    rw [hdev, horig]
  cases hb : validarLlaveDispositivo tabla ev2.contexto.dispositivoId ev2.meta.origen with
  | false =>
    have hb1 : validarLlaveDispositivo tabla ev1.contexto.dispositivoId ev1.meta.origen
        = false := by rw [hauth, hb]
    have t1 : procesarEvento tabla id1 ts1 crudo1
        = [("core:llaveRevocada", ValorEmitido.revocacion ev1.contexto.dispositivoId
            "Llave no válida o dispositivo inactivo")] := by
      simp [procesarEvento, h1, hb1]
    have t2 : procesarEvento tabla id2 ts2 crudo2
        = [("core:llaveRevocada", ValorEmitido.revocacion ev2.contexto.dispositivoId
            "Llave no válida o dispositivo inactivo")] := by
      simp [procesarEvento, h2, hb]
    constructor
    · rw [t1, t2]
      constructor
      · rintro ⟨v, hv⟩
        simp at hv
      · rintro ⟨v, hv⟩
        simp at hv
    · rw [t1, t2, hdev]
  | true =>
    have hb1 : validarLlaveDispositivo tabla ev1.contexto.dispositivoId ev1.meta.origen
        = true := by rw [hauth, hb]
    have t1 : procesarEvento tabla id1 ts1 crudo1
        = ("core:eventoRecibido", ValorEmitido.evento ev1)
            :: distribuirEvento id1 ts1 ev1 := by
      simp [procesarEvento, h1, hb1]
    have t2 : procesarEvento tabla id2 ts2 crudo2
        = ("core:eventoRecibido", ValorEmitido.evento ev2)
            :: distribuirEvento id2 ts2 ev2 := by
      simp [procesarEvento, h2, hb]
    constructor
    · rw [t1, t2]
      constructor
      · intro _
        exact ⟨ValorEmitido.evento ev2, List.mem_cons_self _ _⟩
      · intro _
        exact ⟨ValorEmitido.evento ev1, List.mem_cons_self _ _⟩
    · rw [t1, t2]
      rfl

theorem C10_autorizacion_funcion_de_id_y_origen_witness :
    parseEvento ejemploCrudoValido = some evEjemplo ∧
    parseEvento ejemploCrudoValido2 = some evEjemplo2 ∧
    evEjemplo.contexto.dispositivoId = evEjemplo2.contexto.dispositivoId ∧
    evEjemplo.meta.origen = evEjemplo2.meta.origen ∧
    (((∃ v, ("core:eventoRecibido", v) ∈ procesarEvento [] "id-1" "ts-1" ejemploCrudoValido) ↔
        (∃ v, ("core:eventoRecibido", v)
            ∈ procesarEvento [] "id-2" "ts-2" ejemploCrudoValido2)) ∧
      (procesarEvento [] "id-1" "ts-1" ejemploCrudoValido).filter esEmisionRevocacion
        = (procesarEvento [] "id-2" "ts-2" ejemploCrudoValido2).filter esEmisionRevocacion) :=
  ⟨rfl, rfl, rfl, rfl,
    C10_autorizacion_funcion_de_id_y_origen [] "id-1" "ts-1" "id-2" "ts-2"
      ejemploCrudoValido ejemploCrudoValido2 evEjemplo evEjemplo2 rfl rfl rfl rfl⟩

/-- Tabla con dos registros que comparten id, cargable por
`cargarListaAutorizada` (el esquema no exige unicidad de ids). -/
def tablaDuplicada : List Dispositivo :=
  [⟨"term-1", "llave-a", false, none⟩, ⟨"term-1", "llave-b", true, none⟩]

/-- Version JSON cruda de `tablaDuplicada`. -/
def jsonTablaDuplicada : Json :=
  Json.arr
    [Json.obj [("id", Json.str "term-1"), ("llave", Json.str "llave-a"),
               ("activo", Json.bool false)],
     Json.obj [("id", Json.str "term-1"), ("llave", Json.str "llave-b"),
               ("activo", Json.bool true)]]

/-- C3 contraejemplo: la afirmacion "devuelve true si y solo si la tabla
cargada contiene un registro con ese id, activo y esa llave" falla sobre una
tabla cargada con ids duplicados, que la operacion de carga acepta: con dos
registros de id term-1 (el primero inactivo, el segundo activo con la llave
presentada), find toma el primero y el chequeo devuelve false aunque la tabla
contiene un registro que cumple las tres condiciones. -/
theorem C3_autorizado_iff_counterexample :
    cargarListaAutorizada [] jsonTablaDuplicada = ⟨tablaDuplicada, true, []⟩ ∧
    esDispositivoAutorizado tablaDuplicada "term-1" "llave-b" = false ∧
    ∃ d ∈ tablaDuplicada, d.id = "term-1" ∧ d.activo = true ∧ d.llave = "llave-b" := by
  refine ⟨rfl, rfl, ⟨⟨"term-1", "llave-b", true, none⟩, ?_, rfl, rfl, rfl⟩⟩
  simp [tablaDuplicada]

/-- C3 (enmendado): sobre toda tabla cargada sin ids repetidos (el invariante
del registro: a lo sumo un registro por id), esDispositivoAutorizado devuelve
true si y solo si la tabla contiene un registro con ese id, activo y cuya
llave coincide exactamente; y sobre la tabla vacia devuelve false para todo
id y toda llave. -/
theorem C3_autorizado_iff (tabla : List Dispositivo) (id llave : String)
    (h : tabla.Pairwise (fun a b => a.id ≠ b.id)) :
    (esDispositivoAutorizado tabla id llave = true ↔
      ∃ d ∈ tabla, d.id = id ∧ d.activo = true ∧ d.llave = llave) ∧
    esDispositivoAutorizado [] id llave = false := by
  refine ⟨?_, rfl⟩
  induction tabla with
  | nil => simp [esDispositivoAutorizado]
  | cons d resto ih =>
    rw [List.pairwise_cons] at h
    obtain ⟨hd, hresto⟩ := h
    by_cases hid : d.id = id
    · have hfind : (d :: resto).find? (fun x => x.id == id) = some d := by
        simp [List.find?, hid]
      constructor
      · intro htrue
        simp only [esDispositivoAutorizado, hfind] at htrue
        refine ⟨d, List.mem_cons_self _ _, hid, ?_⟩
        rcases Bool.eq_false_or_eq_true d.activo with ha | ha
        · rw [ha] at htrue
          simp at htrue
          exact ⟨ha, htrue⟩
        · rw [ha] at htrue; simp at htrue
      · rintro ⟨x, hx, hxid, hxact, hxll⟩
        have hxd : x = d := by
          rcases List.mem_cons.mp hx with rfl | hx2
          · rfl
          · exact absurd (hid.trans hxid.symm) (hd x hx2)
        subst hxd
        simp only [esDispositivoAutorizado, hfind]
        rw [hxact]
        simp [hxll]
    · have hify : esDispositivoAutorizado (d :: resto) id llave
          = esDispositivoAutorizado resto id llave := by
        simp only [esDispositivoAutorizado, List.find?]
        rw [show (d.id == id) = false from beq_eq_false_iff_ne.mpr hid]
      rw [hify, ih hresto]
      constructor
      · rintro ⟨x, hx, resto'⟩
        exact ⟨x, List.mem_cons_of_mem _ hx, resto'⟩
      · rintro ⟨x, hx, hxid, hresto'⟩
        rcases List.mem_cons.mp hx with rfl | hx2
        · exact absurd hxid hid
        · exact ⟨x, hx2, hxid, hresto'⟩

theorem C3_autorizado_iff_witness :
    tablaEjemplo.Pairwise (fun a b => a.id ≠ b.id) ∧
    ((esDispositivoAutorizado tablaEjemplo "term-1" "clave-1" = true ↔
        ∃ d ∈ tablaEjemplo, d.id = "term-1" ∧ d.activo = true ∧ d.llave = "clave-1") ∧
      esDispositivoAutorizado [] "term-1" "clave-1" = false) :=
  ⟨by simp [tablaEjemplo],
    C3_autorizado_iff tablaEjemplo "term-1" "clave-1" (by simp [tablaEjemplo])⟩

theorem parseDispositivos_none_de_miembro (xs : List Json) (e : Json)
    (hmem : e ∈ xs) (hbad : parseDispositivo e = none) :
    parseDispositivos xs = none := by
  induction xs with
  | nil => cases hmem
  | cons x resto ih =>
    rcases List.mem_cons.mp hmem with rfl | h2
    · simp [parseDispositivos, hbad]
    · cases hx : parseDispositivo x with
      | none => simp [parseDispositivos, hx]
      | some d => simp [parseDispositivos, hx, ih h2]

/-- C4: para toda lista cruda de dispositivos con al menos una entrada que no
cumple la forma del registro de dispositivo, la carga rechaza la lista
entera, reporta un error estructural (core:errorDetectado) y deja la tabla
previamente cargada exactamente como estaba: ninguna entrada de la lista
invalida se incorpora (reemplazo todo o nada). -/
theorem C4_carga_todo_o_nada (actual : List Dispositivo) (xs : List Json) (e : Json)
    (hmem : e ∈ xs) (hbad : parseDispositivo e = none) :
    cargarListaAutorizada actual (Json.arr xs)
      = ⟨actual, false, ["core:errorDetectado"]⟩ := by
  unfold cargarListaAutorizada
  rw [show parseListaDispositivos (Json.arr xs) = parseDispositivos xs from rfl,
    parseDispositivos_none_de_miembro xs e hmem hbad]

/-- Entrada sin llave ni activo: no cumple DispositivoSchema. -/
def entradaInvalida : Json := Json.obj [("id", Json.str "term-2")]

theorem C4_carga_todo_o_nada_witness :
    entradaInvalida ∈ [entradaInvalida] ∧
    parseDispositivo entradaInvalida = none ∧
    cargarListaAutorizada tablaEjemplo (Json.arr [entradaInvalida])
      = ⟨tablaEjemplo, false, ["core:errorDetectado"]⟩ :=
  ⟨List.mem_singleton_self _, rfl,
    C4_carga_todo_o_nada tablaEjemplo [entradaInvalida] entradaInvalida
      (List.mem_singleton_self _) rfl⟩

/-- Mapa de conexiones con una conexion viva para term-1. -/
def mapaConTerm1 : MapaConexiones := [("term-1", 1)]

/-- El objeto que el broker emite por core:llaveRevocada (broker.ts, lineas
127-130): plano, con el id bajo la clave dispositivo, sin envoltorio payload. -/
def eventoRevocacionTerm1 : Json :=
  Json.obj [("dispositivo", Json.str "term-1"),
            ("motivo", Json.str "Llave no válida o dispositivo inactivo")]

/-- C5 (evaluacion del codigo en la entrada fallida): el broker emite por
core:llaveRevocada un objeto plano con el id bajo la clave dispositivo; el
oyente del manejador de eventos lee evento.payload.dispositivoId (undefined
para ese objeto, el acceso lanza TypeError) y, aun cuando hubiera payload,
solo emitiria microservidor:cerrarConexion, canal sin oyente registrado en
todo el repositorio. Procesando la revocacion de term-1 con una conexion viva
asignada a term-1, el mapa de conexiones queda identico y ninguna conexion se
cierra, en contra del requisito. -/
theorem C5_revocacion_no_cierra_conexion :
    procesarEvento [] "id-1" "ts-1" ejemploCrudoValido
        = [("core:llaveRevocada", ValorEmitido.revocacion "term-1"
            "Llave no válida o dispositivo inactivo")] ∧
    procesarCola 4 mapaConTerm1 [("core:llaveRevocada", eventoRevocacionTerm1)]
        = (mapaConTerm1, []) ∧
    "microservidor:cerrarConexion" ∉ canalesSuscritosMicroservidor :=
  ⟨rfl, rfl, by decide⟩

/-- C7 contraejemplo: la afirmacion dice que todo mensaje que decodifica como
JSON se reenvia verbatim al broker sin filtro estructural alguno; pero para
el valor decodificado sin campo meta, aunque la pasarela lo emite verbatim en
el bus, el manejador de eventos no lo entrega al broker (el reenvio exige
evento.meta y evento.meta.tipo veraces). -/
theorem C7_reenvio_verbatim_counterexample :
    relayEventoEntrante ejemploCrudoInvalido = none ∧
    EmisionWs.eventoEntrante ejemploCrudoInvalido
      ∈ (alRecibirMensaje none [] "temp-1" 1 ejemploCrudoInvalido).emitidos :=
  ⟨rfl, List.mem_singleton_self _⟩

/-- C7 (enmendado): para todo mensaje entrante que decodifica como JSON, la
pasarela emite el valor decodificado verbatim en el bus como evento de
ingreso, este o no identificada la conexion, y sin juicio estructural ni de
autorizacion propio; el reenvio del manejador de eventos hacia el broker
entrega ese mismo valor sin transformacion si y solo si evento.meta y
evento.meta.tipo son veraces, y en caso contrario lo descarta sin que llegue
al broker. -/
theorem C7_reenvio_verbatim_amended (idActual : Option String)
    (conexiones : MapaConexiones) (conexionId : String) (socket : Nat) (datos : Json) :
    EmisionWs.eventoEntrante datos
        ∈ (alRecibirMensaje idActual conexiones conexionId socket datos).emitidos ∧
    relayEventoEntrante datos
      = (if jsTruthy (jsGet datos "meta") && jsTruthy (jsGet (jsGet datos "meta") "tipo")
         then some datos else none) := by
  constructor
  · unfold alRecibirMensaje
    cases idActual <;> cases extraerDispositivoId datos <;> simp
  · cases datos with
    | obj campos =>
      cases hm : buscarAsoc campos "meta" with
      | none => simp [relayEventoEntrante, jsGet, hm, jsTruthy]
      | some meta =>
        cases meta with
        | obj metaCampos =>
          cases ht : buscarAsoc metaCampos "tipo" with
          | none => simp [relayEventoEntrante, jsGet, hm, ht, jsTruthy]
          | some tipo => simp [relayEventoEntrante, jsGet, hm, ht, jsTruthy]
        | nulo => simp [relayEventoEntrante, jsGet, hm, jsTruthy]
        | bool b => cases b <;> simp [relayEventoEntrante, jsGet, hm, jsTruthy]
        | num q => by_cases hq : q = 0 <;> simp [relayEventoEntrante, jsGet, hm, jsTruthy, hq]
        | str s => by_cases hs : s.isEmpty <;> simp [relayEventoEntrante, jsGet, hm, jsTruthy, hs]
        | arr xs => simp [relayEventoEntrante, jsGet, hm, jsTruthy]
    | nulo => simp [relayEventoEntrante, jsGet, jsTruthy]
    | bool b => simp [relayEventoEntrante, jsGet, jsTruthy]
    | num q => simp [relayEventoEntrante, jsGet, jsTruthy]
    | str s => simp [relayEventoEntrante, jsGet, jsTruthy]
    | arr xs => simp [relayEventoEntrante, jsGet, jsTruthy]

end PizzePos
